import Mathlib

/-!
Manta power HAL (`power/power_manta.c`).

A shallow embedding of the module's three entry points (`power_init`,
`power_set_interactive`, `manta_power_hint`) and of the two sysfs helpers they
are built from, followed by the properties of the frequency-clamp state machine.

Modelling conventions.

* A C `char` array is a list of characters of a fixed length; a C string is the
  run of characters before the first NUL (`cstr`), and reading a string out of
  an array that holds no NUL is undefined, which the model reports as `none`.
* The sysfs tree is a map from paths to contents. A `write` that succeeds
  stores the written characters as the new content of the file; a `read`
  that succeeds copies the content, from offset 0, into the destination
  array, up to the requested count.
* `open`, `read` and `write` may fail. The outcome of each `sysfs_*` call
  is taken from the list `faults` (its head; an empty list means success).
* `calls` is the history of the `sysfs_*` calls made, with their arguments.
* The thread started at the end of `power_init` only fills `gov_name`, which
  nothing reads, and is left out, as are the log macros and the mutex of the
  hint handler (the model is sequential).
-/

namespace PowerManta

/-- The terminating character of a C string. -/
def NUL : Char := Char.ofNat 0

/-- A C string literal: the characters followed by the terminator. -/
def lit (s : String) : List Char := s.toList ++ [NUL]

/-- The string that `strlen` delimits in an array: the characters before the
first NUL, or `none` when the array holds no NUL. -/
def cstr : List Char → Option (List Char)
  | [] => none
  | c :: cs => if c = NUL then some [] else (cstr cs).map (fun v => c :: v)

/-- A `char[n]` object. -/
abbrev CharArray (n : Nat) := { l : List Char // l.length = n }

/-- The all-zero array of a static `char[n]`. -/
def CharArray.zero (n : Nat) : CharArray n := ⟨List.replicate n NUL, by simp⟩

/-- How one `sysfs_*` call fares: both system calls succeed, `open` fails, or
`open` succeeds and the `read`/`write` fails. -/
inductive Fault
  | ok
  | open_fails
  | io_fails
deriving DecidableEq, Repr

/-- A recorded call of one of the sysfs helpers. -/
inductive Call
  | write (path : Option String) (s : List Char)
  | read (path : Option String) (buflen : Nat)
deriving DecidableEq, Repr

/-- The statics of the file that the entry points use, together with the
sysfs tree, the pending I/O outcomes and the history of helper calls. -/
structure Sys where
  scaling_max_freq_screen_on : CharArray 51
  low_power_mode : Bool
  files : String → List Char
  faults : List Fault
  calls : List Call

/-- The fields of `struct manta_power_module` that the entry points read
(`none` is the null pointer). -/
structure manta_power_module where
  boostpulse_fd : Int
  boostpulse_warned : Int
  touchscreen_power_path : Option String

def CPU_MAX_FREQ_PATH : String := "/sys/devices/system/cpu/cpu0/cpufreq/scaling_max_freq"
def LOW_POWER_MAX_FREQ : List Char := lit "800000"
def NORMAL_MAX_FREQ : List Char := lit "1700000"
def BOOST_PULSE_DURATION_STR : List Char := lit "80000"

/-- The outcome at the head of a list of pending outcomes; the empty list
stands for success throughout. -/
def outcome : List Fault → Fault
  | [] => Fault.ok
  | f :: _ => f

/-- The outcome of the next helper call on `path`: `open` on a null path
always fails, otherwise the head of `faults` decides. -/
def nextFault (path : Option String) (w : Sys) : Fault :=
  match path with
  | none => Fault.open_fails
  | some _ => outcome w.faults

/-- The bookkeeping common to every helper call. -/
def record (c : Call) (w : Sys) : Sys :=
  { w with faults := w.faults.tail, calls := w.calls ++ [c] }

/-- Replace the content of one file. -/
def store (files : String → List Char) (p : String) (v : List Char) : String → List Char :=
  fun q => if q = p then v else files q

/-- Model of `sysfs_write(path, s)`: `open`; on failure return; otherwise
`write(fd, s, strlen(s))`, whose failure is only logged. `s` is the array the
pointer refers to. -/
def sysfs_write (path : Option String) (s : List Char) (w : Sys) : Option Sys :=
  match path, nextFault path w with
  | some p, Fault.ok =>
      (cstr s).map (fun v => { record (Call.write path s) w with files := store w.files p v })
  | some _, Fault.io_fails => (cstr s).map (fun _ => record (Call.write path s) w)
  | _, _ => some (record (Call.write path s) w)

/-- The bytes of `s` after `read` has copied `c` over its start. -/
def overlay (c s : List Char) : List Char := c ++ s.drop c.length

/-- The array `s` after `read` has stored the bytes `c` at its start. -/
def readInto {n : Nat} (c : List Char) (s : CharArray n) (h : c.length ≤ n) : CharArray n :=
  ⟨overlay c s.val, by
    have hs := s.property
    simp only [overlay, List.length_append, List.length_drop]
    omega⟩

/-- Model of `sysfs_read(path, s, buflen)`: `open`; on failure return;
otherwise `read(fd, s, buflen)`, whose failure is only logged. Returns the
array after the call; `none` when `read` would store past the end of `s`. -/
def sysfs_read {n : Nat} (path : Option String) (s : CharArray n) (buflen : Nat) (w : Sys) :
    Option (CharArray n × Sys) :=
  match path, nextFault path w with
  | some p, Fault.ok =>
      if h : ((w.files p).take buflen).length ≤ n then
        some (readInto ((w.files p).take buflen) s h, record (Call.read path buflen) w)
      else none
  | _, _ => some (s, record (Call.read path buflen) w)

/-- Values of `power_hint_t`, an enumeration of `hardware/power.h`; `other`
stands for every value that the switch of `manta_power_hint` does not name. -/
inductive power_hint_t
  | POWER_HINT_VSYNC
  | POWER_HINT_INTERACTION
  | POWER_HINT_LOW_POWER
  | other (code : Int)
deriving DecidableEq, Repr

/-- Model of `power_init`: one read of the maximum frequency into the static
array, then the twelve governor writes, each issued whatever became of the
earlier ones. -/
def power_init (_manta : manta_power_module) (w : Sys) : Option Sys :=
  ((sysfs_read (some CPU_MAX_FREQ_PATH) w.scaling_max_freq_screen_on 51 w).map
      (fun r => { r.2 with scaling_max_freq_screen_on := r.1 }))
    |>.bind (sysfs_write (some "/sys/devices/system/cpu/cpufreq/interactive/timer_rate")
      (lit "20000"))
    |>.bind (sysfs_write (some "/sys/devices/system/cpu/cpufreq/interactive/timer_slack")
      (lit "70000"))
    |>.bind (sysfs_write (some "/sys/devices/system/cpu/cpufreq/interactive/min_sample_time")
      (lit "40000"))
    |>.bind (sysfs_write (some "/sys/devices/system/cpu/cpufreq/interactive/hispeed_freq")
      (lit "800000"))
    |>.bind (sysfs_write (some "/sys/devices/system/cpu/cpufreq/interactive/go_hispeed_load")
      (lit "99"))
    |>.bind (sysfs_write (some "/sys/devices/system/cpu/cpufreq/interactive/target_loads")
      (lit "80 1000000:80 1100000:85 1200000:90 1300000:95 1400000:99"))
    |>.bind (sysfs_write (some "/sys/devices/system/cpu/cpufreq/interactive/above_hispeed_delay")
      (lit "80000"))
    |>.bind (sysfs_write (some "/sys/devices/system/cpu/cpufreq/interactive/boostpulse_duration")
      BOOST_PULSE_DURATION_STR)
    |>.bind (sysfs_write (some "/sys/devices/system/cpu/cpufreq/interactive/io_is_busy")
      (lit "1"))
    |>.bind (sysfs_write (some "/sys/devices/system/cpu/cpufreq/interactive/sync_freq")
      (lit "1700000"))
    |>.bind (sysfs_write
      (some "/sys/devices/system/cpu/cpufreq/interactive/up_threshold_any_cpu_load")
      (lit "95"))
    |>.bind (sysfs_write
      (some "/sys/devices/system/cpu/cpufreq/interactive/up_threshold_any_cpu_freq")
      (lit "1500000"))

/-- Model of `power_set_interactive(module, on)` (`on_` is its `on`): when it
is zero the maximum frequency is read into the static array; then the ceiling
is written, and then the touchscreen power signal. -/
def power_set_interactive (manta : manta_power_module) (on_ : Int) (w : Sys) : Option Sys :=
  (if on_ = 0 then
      (sysfs_read (some CPU_MAX_FREQ_PATH) w.scaling_max_freq_screen_on 51 w).map
        (fun r => { r.2 with scaling_max_freq_screen_on := r.1 })
    else some w)
    |>.bind (fun w1 => sysfs_write (some CPU_MAX_FREQ_PATH)
      (if on_ = 0 || w1.low_power_mode then LOW_POWER_MAX_FREQ
        else w1.scaling_max_freq_screen_on.val) w1)
    |>.bind (sysfs_write manta.touchscreen_power_path (if on_ ≠ 0 then lit "Y" else lit "N"))

/-- Model of `manta_power_hint(module, hint, data)`; `data` is the pointer
value, zero for the null pointer. -/
def manta_power_hint (_manta : manta_power_module) (hint : power_hint_t) (data : Nat)
    (w : Sys) : Option Sys :=
  match hint with
  | power_hint_t.POWER_HINT_INTERACTION => some w
  | power_hint_t.POWER_HINT_VSYNC => some w
  | power_hint_t.POWER_HINT_LOW_POWER =>
      (if data ≠ 0 then sysfs_write (some CPU_MAX_FREQ_PATH) LOW_POWER_MAX_FREQ w
        else sysfs_write (some CPU_MAX_FREQ_PATH) NORMAL_MAX_FREQ w).map
        (fun w1 => { w1 with low_power_mode := decide (data ≠ 0) })
  | _ => some w

/-- The module object as the file defines it; `touchscreen_power_path` is not
named in the initializer, so it is the null pointer. -/
def HAL_MODULE_INFO_SYM : manta_power_module :=
  { boostpulse_fd := -1, boostpulse_warned := 0, touchscreen_power_path := none }

/-- The state at load time: the statics zeroed, over a given sysfs tree and
given I/O outcomes. -/
def boot (files : String → List Char) (faults : List Fault) : Sys :=
  { scaling_max_freq_screen_on := CharArray.zero 51, low_power_mode := false,
    files := files, faults := faults, calls := [] }

/-- The calls the host makes after `init`. -/
inductive Op
  | setInteractive (on_ : Int)
  | powerHint (hint : power_hint_t) (data : Nat)
deriving DecidableEq, Repr

/-- One host call. -/
def step (manta : manta_power_module) (op : Op) (w : Sys) : Option Sys :=
  match op with
  | Op.setInteractive on_ => power_set_interactive manta on_ w
  | Op.powerHint hint data => manta_power_hint manta hint data w

/-- A sequence of host calls, one after the other. -/
def run (manta : manta_power_module) : List Op → Sys → Option Sys
  | [], w => some w
  | op :: ops, w => (step manta op w).bind (run manta ops)

/-- A sysfs tree whose maximum-frequency file holds `v` and whose other files
are empty. -/
def sysfsWith (v : String) : String → List Char :=
  store (fun _ => []) CPU_MAX_FREQ_PATH v.toList

/-- The string cached in `scaling_max_freq_screen_on`. -/
def Sys.screenOnMaxFreq (w : Sys) : Option (List Char) := cstr w.scaling_max_freq_screen_on.val

/-- The files after a `sysfs_write` of the string `v` to `path` in state `w`:
the file takes the string when the path is real and the call succeeds. -/
def written (path : Option String) (v : List Char) (w : Sys) : String → List Char :=
  match path with
  | some p => if outcome w.faults = Fault.ok then store w.files p v else w.files
  | none => w.files

/-- The static array after a successful `sysfs_read` of the maximum-frequency
file in state `w`. -/
def capture (w : Sys) : CharArray 51 :=
  readInto ((w.files CPU_MAX_FREQ_PATH).take 51) w.scaling_max_freq_screen_on
    (by rw [List.length_take]; exact Nat.min_le_left _ _)

/-- The state after the `sysfs_read` that opens `power_init` and
`power_set_interactive(false)`. -/
def afterRead (w : Sys) : Sys :=
  { record (Call.read (some CPU_MAX_FREQ_PATH) 51) w with
    scaling_max_freq_screen_on :=
      if outcome w.faults = Fault.ok then capture w else w.scaling_max_freq_screen_on }

/-- The state after a `sysfs_write(path, s)` that hands the string `v` to
`write`. -/
def afterWrite (path : Option String) (s v : List Char) (w : Sys) : Sys :=
  { record (Call.write path s) w with files := written path v w }

/-- The 51-byte array that holds the string `v` (cut to 51 bytes) and is zero
after it. -/
def CharArray.ofString (v : String) : CharArray 51 :=
  ⟨(v.toList ++ List.replicate 51 NUL).take 51, by simp⟩

/-- A state with the screen on: "1700000" in the maximum-frequency file and
in the cache, low-power mode off, no I/O failure pending. -/
def screenOnState : Sys :=
  { boot (sysfsWith "1700000") [] with scaling_max_freq_screen_on := CharArray.ofString "1700000" }

/-- A state in low-power mode whose maximum-frequency file nevertheless holds
"1700000" (the statics are as at load time otherwise). -/
def lowPowerState : Sys :=
  { boot (sysfsWith "1700000") [] with low_power_mode := true }

/-- Whether the screen is off after the calls `ops`, `b` telling whether it
was off before them: the last `setInteractive` decides. -/
def screenOff : Bool → List Op → Bool
  | b, [] => b
  | _, Op.setInteractive on_ :: ops => screenOff (decide (on_ = 0)) ops
  | b, Op.powerHint _ _ :: ops => screenOff b ops

/-- Whether the screen is off after the calls `ops` and no low-power hint with
null data came after the last `setInteractive`; `b` tells whether that was so
before `ops`. -/
def screenOffHeld : Bool → List Op → Bool
  | b, [] => b
  | _, Op.setInteractive on_ :: ops => screenOffHeld (decide (on_ = 0)) ops
  | b, Op.powerHint power_hint_t.POWER_HINT_LOW_POWER data :: ops =>
      screenOffHeld (b && decide (data ≠ 0)) ops
  | b, Op.powerHint _ _ :: ops => screenOffHeld b ops

/-- The configuration table of the specification (section 6), the logical
endpoint names resolved under the interactive governor directory. -/
def specTable : List (String × String) :=
  [("timer_rate", "20000"), ("timer_slack", "70000"), ("min_sample_time", "40000"),
   ("hispeed_freq", "800000"), ("go_hispeed_load", "99"),
   ("target_loads", "80 1000000:80 1100000:85 1200000:90 1300000:95 1400000:99"),
   ("above_hispeed_delay", "80000"), ("boostpulse_duration", "80000"), ("io_is_busy", "1"),
   ("sync_freq", "1700000"), ("up_threshold_any_cpu_load", "95"),
   ("up_threshold_any_cpu_freq", "1500000")]

/-- The path of a logical endpoint of the interactive governor. -/
def interactivePath (name : String) : String :=
  "/sys/devices/system/cpu/cpufreq/interactive/" ++ name

/-- The state after `sysfs_write` has been called, in order, on every row of a
table of logical endpoints and values. -/
def applyWrites (tbl : List (String × String)) (w : Sys) : Sys :=
  tbl.foldl (fun w1 e => afterWrite (some (interactivePath e.1)) (lit e.2) e.2.toList w1) w

/-! Section: The sysfs helpers -/

theorem cstr_low : cstr LOW_POWER_MAX_FREQ = some "800000".toList := by decide

theorem cstr_normal : cstr NORMAL_MAX_FREQ = some "1700000".toList := by decide

theorem cstr_Y : cstr (lit "Y") = some "Y".toList := by decide

theorem cstr_N : cstr (lit "N") = some "N".toList := by decide

/-- A write through the null pointer changes no file. -/
theorem sysfs_write_null (s : List Char) (w : Sys) :
    sysfs_write none s w = some (record (Call.write none s) w) := by
  simp [sysfs_write, nextFault]

/-- What a write of a terminated string leaves behind, whatever its outcome. -/
theorem sysfs_write_str (p : String) (s v : List Char) (w : Sys) (hs : cstr s = some v) :
    sysfs_write (some p) s w
      = some { record (Call.write (some p) s) w with
                files := if outcome w.faults = Fault.ok then store w.files p v
                         else w.files } := by
  unfold sysfs_write nextFault
  cases hh : outcome w.faults <;> simp [hs] <;> rfl

/-- A write of a terminated string, on any path. -/
theorem sysfs_write_eq (path : Option String) (s v : List Char) (w : Sys)
    (hs : cstr s = some v) : sysfs_write path s w = some (afterWrite path s v w) := by
  cases path with
  | none => rw [sysfs_write_null]; rfl
  | some p => rw [sysfs_write_str p s v w hs]; rfl

/-- The read of the maximum-frequency file into the static array. -/
theorem sysfs_read_max_freq (w : Sys) :
    (sysfs_read (some CPU_MAX_FREQ_PATH) w.scaling_max_freq_screen_on 51 w).map
        (fun r => { r.2 with scaling_max_freq_screen_on := r.1 })
      = some (afterRead w) := by
  have hlen : ((w.files CPU_MAX_FREQ_PATH).take 51).length ≤ 51 := by
    rw [List.length_take]; exact Nat.min_le_left _ _
  unfold sysfs_read nextFault afterRead
  cases hh : outcome w.faults <;> simp [hlen, capture, record]

/-- The touchscreen signal is a terminated literal. -/
theorem cstr_signal (on_ : Int) :
    cstr (if on_ ≠ 0 then lit "Y" else lit "N")
      = some (if on_ ≠ 0 then "Y".toList else "N".toList) := by
  by_cases h : on_ = 0
  · simp [h, cstr_N]
  · simp [h, cstr_Y]

/-- The screen-off call in closed form. -/
theorem power_set_interactive_off (manta : manta_power_module) (w : Sys) :
    power_set_interactive manta 0 w
      = some (afterWrite manta.touchscreen_power_path (lit "N") "N".toList
          (afterWrite (some CPU_MAX_FREQ_PATH) (lit "800000") "800000".toList
            (afterRead w))) := by
  unfold power_set_interactive
  simp only [if_true, sysfs_read_max_freq, Option.some_bind, Bool.true_or, decide_True,
    ne_eq, not_true_eq_false, if_false]
  rw [sysfs_write_eq _ _ _ _ cstr_low, Option.some_bind, sysfs_write_eq _ _ _ _ cstr_N]
  rfl

/-- The screen-on call in closed form, for a terminated argument. -/
theorem power_set_interactive_on (manta : manta_power_module) (on_ : Int) (w : Sys)
    (v : List Char) (hon : on_ ≠ 0)
    (hv : cstr (if w.low_power_mode then lit "800000"
              else w.scaling_max_freq_screen_on.val) = some v) :
    power_set_interactive manta on_ w
      = some (afterWrite manta.touchscreen_power_path (lit "Y") "Y".toList
          (afterWrite (some CPU_MAX_FREQ_PATH)
            (if w.low_power_mode then lit "800000" else w.scaling_max_freq_screen_on.val) v
            w)) := by
  unfold power_set_interactive
  simp only [hon, if_false, Option.some_bind, decide_False, Bool.false_or, ne_eq,
    not_false_eq_true, if_true]
  have hv2 : cstr (if w.low_power_mode = true then LOW_POWER_MAX_FREQ
      else w.scaling_max_freq_screen_on.val) = some v := hv
  rw [sysfs_write_eq _ _ _ _ hv2, Option.some_bind, sysfs_write_eq _ _ _ _ cstr_Y]
  rfl

/-! Section: The hint handler -/

/-- The low-power hint in closed form. -/
theorem manta_power_hint_low_power_eq (manta : manta_power_module) (data : Nat) (w : Sys) :
    manta_power_hint manta power_hint_t.POWER_HINT_LOW_POWER data w
      = some { record (Call.write (some CPU_MAX_FREQ_PATH)
                  (if data ≠ 0 then lit "800000" else lit "1700000")) w with
                files := if outcome w.faults = Fault.ok then
                    store w.files CPU_MAX_FREQ_PATH
                      (if data ≠ 0 then "800000".toList else "1700000".toList)
                  else w.files
                low_power_mode := decide (data ≠ 0) } := by
  unfold manta_power_hint
  by_cases hd : data = 0
  · simp only [hd, ne_eq, not_true_eq_false, if_false, sysfs_write_str _ _ _ _ cstr_normal,
      Option.map_some', decide_False]
    rfl
  · simp only [hd, ne_eq, not_false_eq_true, if_true, sysfs_write_str _ _ _ _ cstr_low,
      Option.map_some', decide_True]
    rfl

/-- The arms of the switch other than the low-power one fall through. -/
theorem manta_power_hint_skip (manta : manta_power_module) (hint : power_hint_t) (data : Nat)
    (w : Sys) (hh : hint ≠ power_hint_t.POWER_HINT_LOW_POWER) :
    manta_power_hint manta hint data w = some w := by
  cases hint <;> simp_all [manta_power_hint]

/-- C3: for every state, every pattern of I/O outcomes and every `data`, the
low-power hint calls `sysfs_write` once, on the maximum-frequency file, with
"800000" when `data` is non-null and "1700000" when it is null (the file then
holds that string if the write succeeds and is untouched otherwise), sets
`low_power_mode` to whether `data` is non-null and leaves the cached screen-on
frequency alone; a second hint with null data whose write succeeds then leaves
the file holding "1700000" with `low_power_mode` false. -/
theorem manta_power_hint_low_power (manta : manta_power_module) (data : Nat) (w : Sys) :
    ∃ w1, manta_power_hint manta power_hint_t.POWER_HINT_LOW_POWER data w = some w1
      ∧ w1.calls = w.calls ++ [Call.write (some CPU_MAX_FREQ_PATH)
          (if data ≠ 0 then lit "800000" else lit "1700000")]
      ∧ w1.files = (if outcome w.faults = Fault.ok then
          store w.files CPU_MAX_FREQ_PATH
            (if data ≠ 0 then "800000".toList else "1700000".toList)
          else w.files)
      ∧ w1.low_power_mode = decide (data ≠ 0)
      ∧ w1.scaling_max_freq_screen_on = w.scaling_max_freq_screen_on
      ∧ w1.faults = w.faults.tail
      ∧ ∃ w2, manta_power_hint manta power_hint_t.POWER_HINT_LOW_POWER 0 w1 = some w2
          ∧ w2.low_power_mode = false
          ∧ w2.scaling_max_freq_screen_on = w.scaling_max_freq_screen_on
          ∧ (outcome w1.faults = Fault.ok →
              w2.files CPU_MAX_FREQ_PATH = "1700000".toList) := by
  refine ⟨_, manta_power_hint_low_power_eq manta data w, rfl, rfl, rfl, rfl, rfl,
    _, manta_power_hint_low_power_eq manta 0 _, rfl, rfl, ?_⟩
  intro h
  dsimp only [record] at h ⊢
  rw [if_pos h]
  simp [store]

/-- Witness of C3 at the load-time state with the file at "1700000": hint
with non-null data, then with null data. -/
theorem manta_power_hint_low_power_witness :
    ∃ w1 w2, manta_power_hint HAL_MODULE_INFO_SYM power_hint_t.POWER_HINT_LOW_POWER 1
          (boot (sysfsWith "1700000") []) = some w1
      ∧ w1.files CPU_MAX_FREQ_PATH = "800000".toList ∧ w1.low_power_mode = true
      ∧ manta_power_hint HAL_MODULE_INFO_SYM power_hint_t.POWER_HINT_LOW_POWER 0 w1 = some w2
      ∧ w2.files CPU_MAX_FREQ_PATH = "1700000".toList ∧ w2.low_power_mode = false := by
  obtain ⟨w1, h1, -, hfiles, hl, -, hfl, w2, h2, hl2, -, hf2⟩ :=
    manta_power_hint_low_power HAL_MODULE_INFO_SYM 1 (boot (sysfsWith "1700000") [])
  refine ⟨w1, w2, h1, ?_, ?_, h2, hf2 ?_, hl2⟩
  · rw [hfiles]; simp [boot, store, outcome]
  · simpa using hl
  · rw [hfl]; rfl

/-- C7: every hint other than the low-power one, with any data, returns
with the state as it was: no helper call is made, and the statics and all
files are unchanged. -/
theorem manta_power_hint_other (manta : manta_power_module) (hint : power_hint_t) (data : Nat)
    (w : Sys) (hh : hint ≠ power_hint_t.POWER_HINT_LOW_POWER) :
    manta_power_hint manta hint data w = some w :=
  manta_power_hint_skip manta hint data w hh

/-- Witness of C7: a vsync hint at the load-time state. -/
theorem manta_power_hint_other_witness :
    manta_power_hint HAL_MODULE_INFO_SYM power_hint_t.POWER_HINT_VSYNC 7
      (boot (sysfsWith "1700000") []) = some (boot (sysfsWith "1700000") []) :=
  manta_power_hint_other HAL_MODULE_INFO_SYM power_hint_t.POWER_HINT_VSYNC 7
    (boot (sysfsWith "1700000") []) (by decide)

/-! Section: The interactive-state setter -/

/-- C1: for every module, every `on`, and every state whose cache holds a
string `v` (any low-power flag, any file contents, any pending I/O outcomes),
`power_set_interactive` makes its calls in this order: the read when `on` is
zero, the write of the ceiling, the write of the touchscreen signal. The
ceiling it hands to the maximum-frequency file is "800000" when `on` is zero or
`low_power_mode` is set, and otherwise the cached array, whose string is `v`;
when that write succeeds (and the touchscreen path is another file) the file
ends up holding exactly that value. The low-power flag is not touched. -/
theorem power_set_interactive_ceiling (manta : manta_power_module) (on_ : Int) (w : Sys)
    (v : List Char) (hv : w.screenOnMaxFreq = some v) :
    ∃ w1, power_set_interactive manta on_ w = some w1
      ∧ w1.calls = w.calls
          ++ (if on_ = 0 then [Call.read (some CPU_MAX_FREQ_PATH) 51] else [])
          ++ [Call.write (some CPU_MAX_FREQ_PATH)
                (if on_ = 0 ∨ w.low_power_mode = true then lit "800000"
                  else w.scaling_max_freq_screen_on.val),
              Call.write manta.touchscreen_power_path (if on_ ≠ 0 then lit "Y" else lit "N")]
      ∧ cstr (if on_ = 0 ∨ w.low_power_mode = true then lit "800000"
                else w.scaling_max_freq_screen_on.val)
          = some (if on_ = 0 ∨ w.low_power_mode = true then "800000".toList else v)
      ∧ (outcome (if on_ = 0 then w.faults.tail else w.faults) = Fault.ok →
          manta.touchscreen_power_path ≠ some CPU_MAX_FREQ_PATH →
          w1.files CPU_MAX_FREQ_PATH
            = (if on_ = 0 ∨ w.low_power_mode = true then "800000".toList else v))
      ∧ w1.low_power_mode = w.low_power_mode := by
  by_cases hon : on_ = 0
  · subst hon
    refine ⟨_, power_set_interactive_off manta w, ?_, ?_, ?_, rfl⟩
    · simp [afterWrite, afterRead, record]
    · simpa using cstr_low
    · intro ho ht
      simp only [if_true] at ho
      cases hp : manta.touchscreen_power_path with
      | none => simp [afterWrite, afterRead, record, written, ho, store]
      | some q =>
        have hq : CPU_MAX_FREQ_PATH ≠ q := fun h => ht (by rw [hp, h])
        by_cases h2 : outcome w.faults.tail.tail = Fault.ok <;>
          simp [afterWrite, afterRead, record, written, ho, store, hq, h2]
  · have hv2 : cstr (if w.low_power_mode then lit "800000"
        else w.scaling_max_freq_screen_on.val)
        = some (if w.low_power_mode then "800000".toList else v) := by
      by_cases hl : w.low_power_mode = true
      · simpa [hl] using cstr_low
      · simpa [hl] using hv
    refine ⟨_, power_set_interactive_on manta on_ w _ hon hv2, ?_, ?_, ?_, rfl⟩
    · simp [afterWrite, record, hon]
    · simpa [hon] using hv2
    · intro ho ht
      simp only [hon, if_false] at ho
      cases hp : manta.touchscreen_power_path with
      | none => simp [afterWrite, record, written, ho, store, hon]
      | some q =>
        have hq : CPU_MAX_FREQ_PATH ≠ q := fun h => ht (by rw [hp, h])
        by_cases h2 : outcome w.faults.tail = Fault.ok <;>
          simp [afterWrite, record, written, ho, store, hq, h2, hon]

/-- Witness of C1: the screen-on call in a state that caches "1700000". -/
theorem power_set_interactive_ceiling_witness :
    ∃ w1, power_set_interactive HAL_MODULE_INFO_SYM 1 screenOnState = some w1
      ∧ w1.files CPU_MAX_FREQ_PATH = "1700000".toList := by
  obtain ⟨w1, h1, -, -, hfile, -⟩ :=
    power_set_interactive_ceiling HAL_MODULE_INFO_SYM 1 screenOnState "1700000".toList
      (by decide)
  exact ⟨w1, h1, by simpa [screenOnState, boot] using hfile (by decide) (by decide)⟩

/-- C8 (the code at the failing input): the module object leaves
`touchscreen_power_path` null, so in the screen-on call on a state caching
"1700000" the second write, of "Y", goes through the null pointer: `open`
fails, and after the call no file holds "Y". -/
theorem power_set_interactive_touchscreen_null :
    HAL_MODULE_INFO_SYM.touchscreen_power_path = none
      ∧ ∃ w1, power_set_interactive HAL_MODULE_INFO_SYM 1 screenOnState = some w1
          ∧ w1.calls = [Call.write (some CPU_MAX_FREQ_PATH) (CharArray.ofString "1700000").val,
                        Call.write none (lit "Y")]
          ∧ ∀ p, w1.files p ≠ "Y".toList := by
  refine ⟨rfl, _, power_set_interactive_on HAL_MODULE_INFO_SYM 1 screenOnState
    "1700000".toList (by decide) (by decide), rfl, ?_⟩
  intro p
  by_cases hp : p = CPU_MAX_FREQ_PATH <;>
    simp [afterWrite, record, written, HAL_MODULE_INFO_SYM, screenOnState, boot, store,
      sysfsWith, outcome, hp]

/-- C2, as stated, fails: started in low-power mode over a file holding
"1700000", the screen-off call captures "1700000" and the screen-on call that
follows writes "800000". -/
theorem set_interactive_off_on_low_power :
    ∃ w1 w2, power_set_interactive HAL_MODULE_INFO_SYM 0 lowPowerState = some w1
      ∧ w1.screenOnMaxFreq = some "1700000".toList
      ∧ power_set_interactive HAL_MODULE_INFO_SYM 1 w1 = some w2
      ∧ w2.calls = w1.calls ++ [Call.write (some CPU_MAX_FREQ_PATH) (lit "800000"),
                                Call.write none (lit "Y")]
      ∧ w2.files CPU_MAX_FREQ_PATH = "800000".toList
      ∧ "800000".toList ≠ "1700000".toList := by
  refine ⟨_, _, power_set_interactive_off HAL_MODULE_INFO_SYM lowPowerState, by decide,
    power_set_interactive_on HAL_MODULE_INFO_SYM 1 _ "800000".toList (by decide) (by decide),
    rfl, ?_, by decide⟩
  simp [afterWrite, afterRead, record, written, HAL_MODULE_INFO_SYM, lowPowerState, boot,
    store, outcome]

/-- C2 (amended): for every module and every state with all I/O succeeding in
which the array read by the screen-off call holds a string `v`, that call
leaves the cache holding `v`, and the screen-on call that follows hands the
maximum-frequency file the cached array, so `v`, when `low_power_mode` is
false, and "800000" when it is true; the file then holds that value (the
touchscreen path being another file). -/
theorem set_interactive_off_on (manta : manta_power_module) (on_ : Int) (w : Sys)
    (v : List Char) (hon : on_ ≠ 0) (hf : w.faults = []) (hv : cstr (capture w).val = some v) :
    ∃ w1 w2, power_set_interactive manta 0 w = some w1
      ∧ w1.scaling_max_freq_screen_on = capture w
      ∧ w1.screenOnMaxFreq = some v
      ∧ power_set_interactive manta on_ w1 = some w2
      ∧ w2.calls = w1.calls ++
          [Call.write (some CPU_MAX_FREQ_PATH)
              (if w.low_power_mode then lit "800000" else w1.scaling_max_freq_screen_on.val),
            Call.write manta.touchscreen_power_path (lit "Y")]
      ∧ (manta.touchscreen_power_path ≠ some CPU_MAX_FREQ_PATH →
          w2.files CPU_MAX_FREQ_PATH = (if w.low_power_mode then "800000".toList else v)) := by
  have hcap : (afterRead w).scaling_max_freq_screen_on = capture w := by
    simp [afterRead, hf, outcome]
  have hv2 : cstr (if w.low_power_mode then lit "800000" else (capture w).val)
      = some (if w.low_power_mode then "800000".toList else v) := by
    by_cases hl : w.low_power_mode = true
    · simpa [hl] using cstr_low
    · simpa [hl] using hv
  refine ⟨_, _, power_set_interactive_off manta w, hcap, ?_,
    power_set_interactive_on manta on_ _ (if w.low_power_mode then "800000".toList else v) hon
      ?_, ?_, ?_⟩
  · show cstr (afterRead w).scaling_max_freq_screen_on.val = some v
    rw [hcap]; exact hv
  · show cstr (if w.low_power_mode then lit "800000"
      else (afterRead w).scaling_max_freq_screen_on.val) = _
    rw [hcap]; exact hv2
  · simp [afterWrite, afterRead, record]
  · intro ht
    cases hp : manta.touchscreen_power_path with
    | none => simp [afterWrite, afterRead, record, written, hf, outcome, store]
    | some q =>
      have hq : CPU_MAX_FREQ_PATH ≠ q := fun h => ht (by rw [hp, h])
      simp [afterWrite, afterRead, record, written, hf, outcome, store, hq]

/-- Witness of the amended C2: from the load-time state over a file holding
"1700000", screen off then on writes "1700000" back. -/
theorem set_interactive_off_on_witness :
    ∃ w1 w2, power_set_interactive HAL_MODULE_INFO_SYM 0 (boot (sysfsWith "1700000") []) = some w1
      ∧ w1.screenOnMaxFreq = some "1700000".toList
      ∧ power_set_interactive HAL_MODULE_INFO_SYM 1 w1 = some w2
      ∧ w2.files CPU_MAX_FREQ_PATH = "1700000".toList := by
  obtain ⟨w1, w2, h1, -, hc, h2, -, hfile⟩ :=
    set_interactive_off_on HAL_MODULE_INFO_SYM 1 (boot (sysfsWith "1700000") [])
      "1700000".toList (by decide) rfl (by decide)
  exact ⟨w1, w2, h1, hc, h2, by simpa [boot] using hfile (by decide)⟩

/-! Section: The initializer -/

/-- The initializer in closed form: the read, then the rows of the
specification's table in order. -/
theorem power_init_eq (manta : manta_power_module) (w : Sys) :
    power_init manta w = some (applyWrites specTable (afterRead w)) := by
  unfold power_init
  rw [sysfs_read_max_freq]
  simp only [Option.some_bind]
  rw [sysfs_write_eq _ _ "20000".toList _ (by decide), Option.some_bind,
    sysfs_write_eq _ _ "70000".toList _ (by decide), Option.some_bind,
    sysfs_write_eq _ _ "40000".toList _ (by decide), Option.some_bind,
    sysfs_write_eq _ _ "800000".toList _ (by decide), Option.some_bind,
    sysfs_write_eq _ _ "99".toList _ (by decide), Option.some_bind,
    sysfs_write_eq _ _ "80 1000000:80 1100000:85 1200000:90 1300000:95 1400000:99".toList _
      (by decide), Option.some_bind,
    sysfs_write_eq _ _ "80000".toList _ (by decide), Option.some_bind,
    sysfs_write_eq _ _ "80000".toList _ (by decide), Option.some_bind,
    sysfs_write_eq _ _ "1".toList _ (by decide), Option.some_bind,
    sysfs_write_eq _ _ "1700000".toList _ (by decide), Option.some_bind,
    sysfs_write_eq _ _ "95".toList _ (by decide), Option.some_bind,
    sysfs_write_eq _ _ "1500000".toList _ (by decide)]
  rfl

theorem applyWrites_cons (e : String × String) (t : List (String × String)) (w : Sys) :
    applyWrites (e :: t) w
      = applyWrites t (afterWrite (some (interactivePath e.1)) (lit e.2) e.2.toList w) := rfl

theorem applyWrites_calls (tbl : List (String × String)) (w : Sys) :
    (applyWrites tbl w).calls
      = w.calls ++ tbl.map (fun e => Call.write (some (interactivePath e.1)) (lit e.2)) := by
  induction tbl generalizing w with
  | nil => simp [applyWrites]
  | cons e t ih => rw [applyWrites_cons, ih]; simp [afterWrite, record]

theorem applyWrites_statics (tbl : List (String × String)) (w : Sys) :
    (applyWrites tbl w).low_power_mode = w.low_power_mode
      ∧ (applyWrites tbl w).scaling_max_freq_screen_on = w.scaling_max_freq_screen_on
      ∧ (applyWrites tbl w).faults = w.faults.drop tbl.length := by
  induction tbl generalizing w with
  | nil => simp [applyWrites]
  | cons e t ih =>
    rw [applyWrites_cons]
    obtain ⟨h1, h2, h3⟩ := ih (afterWrite (some (interactivePath e.1)) (lit e.2) e.2.toList w)
    refine ⟨h1, h2, ?_⟩
    rw [h3]
    simp [afterWrite, record, List.drop_succ_cons]

/-- A file that no row of the table names is left as it was. -/
theorem applyWrites_other (tbl : List (String × String)) (w : Sys) (q : String)
    (hq : q ∉ tbl.map (fun e => interactivePath e.1)) :
    (applyWrites tbl w).files q = w.files q := by
  induction tbl generalizing w with
  | nil => rfl
  | cons e t ih =>
    simp only [List.map_cons, List.mem_cons, not_or] at hq
    rw [applyWrites_cons, ih _ hq.2]
    by_cases ho : outcome w.faults = Fault.ok <;>
      simp [afterWrite, written, record, store, ho, hq.1]

/-- Over a table of distinct endpoints, each row whose write succeeds leaves
its file holding its value. -/
theorem applyWrites_row (tbl : List (String × String)) (w : Sys)
    (hnd : (tbl.map (fun e => interactivePath e.1)).Nodup) (i : Nat) (hi : i < tbl.length)
    (ho : outcome (w.faults.drop i) = Fault.ok) :
    (applyWrites tbl w).files (interactivePath (tbl.get ⟨i, hi⟩).1)
      = (tbl.get ⟨i, hi⟩).2.toList := by
  induction tbl generalizing w i with
  | nil => simp at hi
  | cons e t ih =>
    rw [List.map_cons, List.nodup_cons] at hnd
    rw [applyWrites_cons]
    cases i with
    | zero =>
      simp only [List.drop_zero] at ho
      simp only [List.get_eq_getElem, List.getElem_cons_zero]
      rw [applyWrites_other _ _ _ hnd.1]
      simp [afterWrite, written, ho, store]
    | succ j =>
      have hj : j < t.length := by simpa using hi
      have := ih (afterWrite (some (interactivePath e.1)) (lit e.2) e.2.toList w) hnd.2 j hj
        (by simpa [afterWrite, record, List.drop_succ_cons] using ho)
      simpa using this

theorem specTable_nodup : (specTable.map (fun e => interactivePath e.1)).Nodup := by decide

/-- C6: for every state and every pattern of I/O outcomes, `power_init`
returns having made the same thirteen calls: the read of the maximum
frequency, then the twelve writes of the table, in its order and with its
literal values; nothing a call meets changes a later call, and every write
that succeeds (outcome `i + 1`, the read taking outcome 0) leaves its endpoint
holding the listed value. -/
theorem power_init_writes (manta : manta_power_module) (w : Sys) :
    ∃ w1, power_init manta w = some w1
      ∧ w1.calls = w.calls ++ Call.read (some CPU_MAX_FREQ_PATH) 51 ::
          specTable.map (fun e => Call.write (some (interactivePath e.1)) (lit e.2))
      ∧ specTable.length = 12
      ∧ (∀ (i : Nat) (hi : i < specTable.length),
          outcome (w.faults.drop (i + 1)) = Fault.ok →
          w1.files (interactivePath (specTable.get ⟨i, hi⟩).1)
            = (specTable.get ⟨i, hi⟩).2.toList)
      ∧ w1.low_power_mode = w.low_power_mode := by
  refine ⟨_, power_init_eq manta w, ?_, rfl, ?_, ?_⟩
  · rw [applyWrites_calls]; simp [afterRead, record]
  · intro i hi ho
    exact applyWrites_row specTable (afterRead w) specTable_nodup i hi
      (by simpa [afterRead, record, List.drop_succ_cons] using ho)
  · exact (applyWrites_statics specTable (afterRead w)).1

/-- Instance of C6: the third write fails at `open` and the tenth at `write`;
all thirteen calls are made all the same, and the endpoints of the writes
around the failed ones hold their values. -/
theorem power_init_writes_witness :
    ∃ w1, power_init HAL_MODULE_INFO_SYM (boot (sysfsWith "1700000")
          [Fault.ok, Fault.ok, Fault.ok, Fault.open_fails, Fault.ok, Fault.ok, Fault.ok,
           Fault.ok, Fault.ok, Fault.ok, Fault.io_fails]) = some w1
      ∧ w1.calls.length = 13
      ∧ w1.files (interactivePath "hispeed_freq") = "800000".toList
      ∧ w1.files (interactivePath "up_threshold_any_cpu_freq") = "1500000".toList := by
  obtain ⟨w1, h1, hc, -, hfile, -⟩ := power_init_writes HAL_MODULE_INFO_SYM
    (boot (sysfsWith "1700000")
      [Fault.ok, Fault.ok, Fault.ok, Fault.open_fails, Fault.ok, Fault.ok, Fault.ok,
       Fault.ok, Fault.ok, Fault.ok, Fault.io_fails])
  exact ⟨w1, h1, by rw [hc]; rfl, hfile 3 (by decide) (by decide),
    hfile 11 (by decide) (by decide)⟩

/-! Section: What the cache holds -/

/-- C9 (the code at the failing input): the array holds "1700000" from an
earlier read and the file now holds the six bytes "800000"; `sysfs_read`
stores six bytes and no terminator, so the seventh byte of the earlier read
stays and the cached string is "8000000", not the file's content. The
screen-off call caches the same. -/
theorem sysfs_read_keeps_stale_bytes :
    sysfsWith "800000" CPU_MAX_FREQ_PATH = "800000".toList
      ∧ (CharArray.ofString "1700000").val = "1700000".toList ++ List.replicate 44 NUL
      ∧ (sysfs_read (some CPU_MAX_FREQ_PATH) (CharArray.ofString "1700000") 51
            (boot (sysfsWith "800000") [])).map (fun r => cstr r.1.val)
          = some (some "8000000".toList)
      ∧ (power_set_interactive HAL_MODULE_INFO_SYM 0
            { screenOnState with files := sysfsWith "800000" }).bind Sys.screenOnMaxFreq
          = some "8000000".toList := by
  decide

/-- C5 (the code at the failing input): in a state caching "1700000" over a
file holding "1700000", one screen-off call keeps "1700000" cached and clamps
the file to "800000"; a second one reads the clamp back into the cache. -/
theorem power_set_interactive_off_twice :
    (power_set_interactive HAL_MODULE_INFO_SYM 0 screenOnState).map
        (fun w => (w.screenOnMaxFreq, w.low_power_mode, w.files CPU_MAX_FREQ_PATH))
      = some (some "1700000".toList, false, "800000".toList)
    ∧ ((power_set_interactive HAL_MODULE_INFO_SYM 0 screenOnState).bind
        (power_set_interactive HAL_MODULE_INFO_SYM 0)).map
        (fun w => (w.screenOnMaxFreq, w.low_power_mode, w.files CPU_MAX_FREQ_PATH))
      = some (some "8000000".toList, false, "800000".toList) := by
  decide

/-- C4 (the code at the failing input): after `power_init` over a file
holding "1700000", a low-power hint followed by a screen-off call leaves the
cache holding the module's own clamp as read back ("800000" over the seven
bytes of "1700000"), and once low-power mode is left and the screen is back
on, that is what the module writes as the ceiling instead of "1700000". Over
a file holding "900000" the cache ends up holding "800000" itself. -/
theorem cache_takes_own_clamp :
    (power_init HAL_MODULE_INFO_SYM (boot (sysfsWith "1700000") [])).bind Sys.screenOnMaxFreq
      = some "1700000".toList
    ∧ ((power_init HAL_MODULE_INFO_SYM (boot (sysfsWith "1700000") [])).bind
        (run HAL_MODULE_INFO_SYM [Op.powerHint power_hint_t.POWER_HINT_LOW_POWER 1,
          Op.setInteractive 0])).bind Sys.screenOnMaxFreq
      = some "8000000".toList
    ∧ ((power_init HAL_MODULE_INFO_SYM (boot (sysfsWith "1700000") [])).bind
        (run HAL_MODULE_INFO_SYM [Op.powerHint power_hint_t.POWER_HINT_LOW_POWER 1,
          Op.setInteractive 0, Op.powerHint power_hint_t.POWER_HINT_LOW_POWER 0,
          Op.setInteractive 1])).map
        (fun w => (w.screenOnMaxFreq, w.low_power_mode, w.files CPU_MAX_FREQ_PATH))
      = some (some "8000000".toList, false, "8000000".toList)
    ∧ ((power_init HAL_MODULE_INFO_SYM (boot (sysfsWith "900000") [])).bind
        (run HAL_MODULE_INFO_SYM [Op.powerHint power_hint_t.POWER_HINT_LOW_POWER 1,
          Op.setInteractive 0])).bind Sys.screenOnMaxFreq
      = some "800000".toList := by
  decide

/-! Section: The clamp -/

/-- C10, as stated, fails: after `power_init` over a file holding "1700000",
a screen-off call and then a low-power hint with null data leave the screen
off and the file holding "1700000". -/
theorem clamp_released_while_screen_off :
    screenOff false [Op.setInteractive 0, Op.powerHint power_hint_t.POWER_HINT_LOW_POWER 0]
      = true
    ∧ ((power_init HAL_MODULE_INFO_SYM (boot (sysfsWith "1700000") [])).bind
        (run HAL_MODULE_INFO_SYM
          [Op.setInteractive 0, Op.powerHint power_hint_t.POWER_HINT_LOW_POWER 0])).map
        (fun w => (w.files CPU_MAX_FREQ_PATH, w.low_power_mode))
      = some ("1700000".toList, false)
    ∧ "1700000".toList ≠ "800000".toList := by
  decide

/-- What a call of `power_set_interactive` that returns, with no I/O failure
pending and the touchscreen path another file, leaves behind. -/
theorem power_set_interactive_clamp (manta : manta_power_module) (on_ : Int) (w w1 : Sys)
    (ht : manta.touchscreen_power_path ≠ some CPU_MAX_FREQ_PATH) (hf : w.faults = [])
    (h : power_set_interactive manta on_ w = some w1) :
    w1.faults = [] ∧ w1.low_power_mode = w.low_power_mode
      ∧ (on_ = 0 ∨ w.low_power_mode = true → w1.files CPU_MAX_FREQ_PATH = "800000".toList) := by
  have hfile : ∀ (s v : List Char) (w2 : Sys), w2.faults = [] →
      (afterWrite manta.touchscreen_power_path s v w2).files CPU_MAX_FREQ_PATH
        = w2.files CPU_MAX_FREQ_PATH := by
    intro s v w2 h2
    cases hp : manta.touchscreen_power_path with
    | none => simp [afterWrite, written]
    | some q =>
      have hq : CPU_MAX_FREQ_PATH ≠ q := fun e => ht (by rw [hp, e])
      simp [afterWrite, written, h2, outcome, store, hq]
  by_cases hon : on_ = 0
  · subst hon
    rw [power_set_interactive_off] at h
    cases h
    refine ⟨by simp [afterWrite, afterRead, record, hf], rfl, fun _ => ?_⟩
    rw [hfile _ _ _ (by simp [afterWrite, afterRead, record, hf])]
    simp [afterWrite, afterRead, record, written, hf, outcome, store]
  · cases hc : cstr (if w.low_power_mode then lit "800000"
        else w.scaling_max_freq_screen_on.val) with
    | none =>
      exfalso
      have hc2 : cstr (if w.low_power_mode = true then LOW_POWER_MAX_FREQ
          else w.scaling_max_freq_screen_on.val) = none := hc
      simp [power_set_interactive, hon, sysfs_write, nextFault, hf, outcome, hc2] at h
    | some v =>
      rw [power_set_interactive_on manta on_ w v hon hc] at h
      cases h
      refine ⟨by simp [afterWrite, record, hf], rfl, fun hl => ?_⟩
      have hl2 : w.low_power_mode = true := by
        cases hl with
        | inl h0 => exact absurd h0 hon
        | inr h1 => exact h1
      rw [hl2] at hc
      have hv : v = "800000".toList := by
        have := cstr_low
        simp only [LOW_POWER_MAX_FREQ] at this
        simp only [if_true] at hc
        rw [this] at hc
        exact (Option.some.inj hc).symm
      rw [hfile _ _ _ (by simp [afterWrite, record, hf])]
      simp [afterWrite, record, written, hf, outcome, store, hv]

/-- The tracker of the standing screen-off clamp, one call at a time. -/
theorem screenOffHeld_cons (b : Bool) (op : Op) (ops : List Op) :
    screenOffHeld b (op :: ops) = screenOffHeld (screenOffHeld b [op]) ops := by
  cases op with
  | setInteractive on_ => rfl
  | powerHint hint data => cases hint <;> rfl

/-- One host call keeps the clamp: with no I/O failure pending, if the file
holds "800000" whenever low-power mode is on or the screen-off clamp stands,
the same is so after the call. -/
theorem step_clamp (manta : manta_power_module) (op : Op) (w w1 : Sys) (g : Bool)
    (ht : manta.touchscreen_power_path ≠ some CPU_MAX_FREQ_PATH) (hf : w.faults = [])
    (h : step manta op w = some w1)
    (hinv : w.low_power_mode = true ∨ g = true →
      w.files CPU_MAX_FREQ_PATH = "800000".toList) :
    w1.faults = [] ∧ (w1.low_power_mode = true ∨ screenOffHeld g [op] = true →
      w1.files CPU_MAX_FREQ_PATH = "800000".toList) := by
  cases op with
  | setInteractive on_ =>
    obtain ⟨h1, h2, h3⟩ := power_set_interactive_clamp manta on_ w w1 ht hf h
    refine ⟨h1, fun hc => h3 ?_⟩
    cases hc with
    | inl hl => exact Or.inr (h2 ▸ hl)
    | inr hg => exact Or.inl (by simpa [screenOffHeld] using hg)
  | powerHint hint data =>
    by_cases hh : hint = power_hint_t.POWER_HINT_LOW_POWER
    · subst hh
      simp only [step] at h
      rw [manta_power_hint_low_power_eq] at h
      cases h
      refine ⟨by simp [record, hf], ?_⟩
      by_cases hd : data = 0
      · simp [hd, screenOffHeld]
      · intro _
        simp [hd, hf, outcome, store]
    · simp only [step] at h
      rw [manta_power_hint_skip manta hint data w hh] at h
      cases h
      refine ⟨hf, fun hc => hinv ?_⟩
      cases hc with
      | inl hl => exact Or.inl hl
      | inr hg =>
        refine Or.inr ?_
        cases hint <;> first | exact absurd rfl hh | simpa [screenOffHeld] using hg

/-- A run of host calls keeps the clamp. -/
theorem run_clamp (manta : manta_power_module) (ops : List Op) (w w1 : Sys) (g : Bool)
    (ht : manta.touchscreen_power_path ≠ some CPU_MAX_FREQ_PATH) (hf : w.faults = [])
    (h : run manta ops w = some w1)
    (hinv : w.low_power_mode = true ∨ g = true →
      w.files CPU_MAX_FREQ_PATH = "800000".toList) :
    w1.low_power_mode = true ∨ screenOffHeld g ops = true →
      w1.files CPU_MAX_FREQ_PATH = "800000".toList := by
  induction ops generalizing w g with
  | nil =>
    simp only [run, Option.some.injEq] at h
    subst h
    simpa [screenOffHeld] using hinv
  | cons op ops ih =>
    simp only [run] at h
    cases hs : step manta op w with
    | none => rw [hs] at h; simp at h
    | some w2 =>
      rw [hs, Option.some_bind] at h
      obtain ⟨hf2, hinv2⟩ := step_clamp manta op w w2 g ht hf hs hinv
      rw [screenOffHeld_cons]
      exact ih w2 (screenOffHeld g [op]) hf2 h hinv2

/-- C10 (amended): in every state reached from `power_init` (on the load-time
statics, over any sysfs tree) by any sequence of `power_set_interactive` and
`manta_power_hint` calls, all I/O succeeding and the touchscreen path
another file, the maximum-frequency file holds "800000" whenever
`low_power_mode` is true, and whenever the screen is off and no low-power hint
with null data has come since it went off. -/
theorem clamp_invariant (manta : manta_power_module) (files : String → List Char)
    (ops : List Op) (w : Sys)
    (ht : manta.touchscreen_power_path ≠ some CPU_MAX_FREQ_PATH)
    (hrun : (power_init manta (boot files [])).bind (run manta ops) = some w)
    (hc : w.low_power_mode = true ∨ screenOffHeld false ops = true) :
    w.files CPU_MAX_FREQ_PATH = "800000".toList := by
  rw [power_init_eq, Option.some_bind] at hrun
  obtain ⟨hl, -, hfl⟩ := applyWrites_statics specTable (afterRead (boot files []))
  refine run_clamp manta ops _ w false ht ?_ hrun ?_ hc
  · rw [hfl]; simp [afterRead, record, boot]
  · rw [hl]; simp [afterRead, record, boot]

/-- Witness of the amended C10: low-power hint, then screen on. -/
theorem clamp_invariant_witness :
    ∃ w, (power_init HAL_MODULE_INFO_SYM (boot (sysfsWith "1700000") [])).bind
          (run HAL_MODULE_INFO_SYM [Op.powerHint power_hint_t.POWER_HINT_LOW_POWER 1,
            Op.setInteractive 1]) = some w
      ∧ w.low_power_mode = true
      ∧ w.files CPU_MAX_FREQ_PATH = "800000".toList := by
  obtain ⟨w, hw⟩ := Option.isSome_iff_exists.mp
    (by decide : ((power_init HAL_MODULE_INFO_SYM (boot (sysfsWith "1700000") [])).bind
          (run HAL_MODULE_INFO_SYM [Op.powerHint power_hint_t.POWER_HINT_LOW_POWER 1,
            Op.setInteractive 1])).isSome = true)
  have hl : w.low_power_mode = true := by
    have h2 : ((power_init HAL_MODULE_INFO_SYM (boot (sysfsWith "1700000") [])).bind
          (run HAL_MODULE_INFO_SYM [Op.powerHint power_hint_t.POWER_HINT_LOW_POWER 1,
            Op.setInteractive 1])).map (fun w => w.low_power_mode) = some true := by decide
    rw [hw] at h2
    simpa using h2
  exact ⟨w, hw, hl, clamp_invariant HAL_MODULE_INFO_SYM _ _ w (by decide) hw (Or.inl hl)⟩

end PowerManta
